import Mathlib

/-!
Verification of the coderd group resource controller
(terraform-provider-coderd, `internal/provider`): the membership differ
`memberDiff`, and the `GroupResource` lifecycle operations Create, Read,
Update and ImportState, embedded shallowly over an abstract entity client.

Modelling conventions:
* `uuid.UUID` values are modelled as `Nat` (the 128-bit value); the Go code
  converts UUIDs to their canonical strings when building patch requests
  (`ValueString()` / `String()`), an injective rendering we elide, so member
  lists stay `List Uuid`.
* Terraform `types.Set` for `members` is `Option (List Uuid)`: `none` is the
  null ("membership unmanaged") sentinel.  `ElementsAs(ctx, &s, false)` on a
  null set stores a nil slice without a diagnostic (the framework's
  reflection treats a slice target as nilable), hence `Option.getD [] `.
* An unknown `organization_id` plan value is `none`.
* The remote client is a record of response functions; each operation
  returns the ordered list of remote calls it issued, the diagnostic it
  raised (if any), and the state snapshot it wrote (if any).
-/

namespace Coderd

abbrev Uuid := Nat

/-- Remote calls the resource can issue, one constructor per codersdk
client method used by the group resource. -/
inductive Call where
  | createGroup (orgID : Uuid) (name displayName avatarURL : String) (quotaAllowance : Int)
  | patchGroup (groupID : Uuid) (addUsers removeUsers : List Uuid)
      (name : String) (displayName avatarURL : Option String) (quotaAllowance : Option Int)
  | fetchGroup (groupID : Uuid)
  | deleteGroup (groupID : Uuid)
  | organizationByName (name : String)
  | groupByOrgAndName (orgID : Uuid) (name : String)
  deriving Repr, DecidableEq

/-- Calls that mutate remote state (create, patch, delete); the lookups are
read-only. -/
def Call.isMutation : Call → Bool
  | .createGroup _ _ _ _ _ => true
  | .patchGroup _ _ _ _ _ _ _ => true
  | .deleteGroup _ => true
  | _ => false

/-- Whether a call is a membership patch call. -/
def Call.isPatch : Call → Bool
  | .patchGroup _ _ _ _ _ _ _ => true
  | _ => false

/-- Mirror of `codersdk.Group` restricted to the fields the resource reads:
`Members` is reduced to the member IDs (the code only reads `member.ID`). -/
structure Group where
  id : Uuid
  name : String
  displayName : String
  avatarURL : String
  quotaAllowance : Int
  organizationID : Uuid
  members : List Uuid
  source : String
  deriving Repr, DecidableEq

/-- Mirror of `codersdk.Organization` restricted to the field used. -/
structure Organization where
  id : Uuid
  deriving Repr, DecidableEq

/-- Mirror of `codersdk.PatchGroupRequest`.  In Go the user lists hold the
canonical UUID strings; we keep the UUID values (the rendering is
injective). -/
structure PatchGroupRequest where
  addUsers : List Uuid
  removeUsers : List Uuid
  name : String
  displayName : Option String
  avatarURL : Option String
  quotaAllowance : Option Int
  deriving Repr, DecidableEq

/-- The abstract entity client: one response function per remote call. -/
structure Client where
  createGroupResp : Uuid → String → String → String → Int → Except String Group
  patchGroupResp : Uuid → PatchGroupRequest → Except String Group
  groupResp : Uuid → Except String Group
  deleteGroupResp : Uuid → Except String Unit
  organizationByNameResp : String → Except String Organization
  groupByOrgAndNameResp : Uuid → String → Except String Group

/-- Mirror of `CoderdProviderData` restricted to what the group resource
uses: the client, the feature map (`Features`), and the default
organization ID. -/
structure CoderdProviderData where
  client : Client
  features : String → Bool
  defaultOrganizationID : Uuid

/-- Mirror of `codersdk.FeatureTemplateRBAC`. -/
def featureTemplateRBAC : String := "template_rbac"

/-- Mirror of `GroupResourceModel`.  `members = none` is the null set
(membership unmanaged); `organizationID = none` is the unknown plan
value. -/
structure GroupResourceModel where
  id : Uuid
  name : String
  displayName : String
  avatarURL : String
  quotaAllowance : Int
  organizationID : Option Uuid
  members : Option (List Uuid)
  deriving Repr, DecidableEq

/-- One constructor per `Diagnostics.AddError` site in the group resource
(the Go message also embeds the underlying client error text, which we
elide). -/
inductive Diag where
  | featureNotEnabled
  | createGroupFailed
  | addMembersFailed
  | getGroupFailed
  | updateGroupFailed
  | deleteGroupFailed
  | parseImportIDFailed
  | getOrganizationFailed
  | getGroupByNameFailed
  | invalidImportIDFormat
  | getImportedGroupFailed
  | cannotImportOIDCGroup
  deriving Repr, DecidableEq

/-- Outcome of a lifecycle operation: the remote calls issued in order, the
diagnostic raised (if any), and the state snapshot written by
`resp.State.Set` (`none` when the operation returned before writing). -/
structure OpResult where
  calls : List Call
  err : Option Diag
  written : Option GroupResourceModel
  deriving Repr, DecidableEq

/-- Embedding of `memberDiff` (util.go).  The Go code materializes `cur` and
`planned` as hash sets; `add` collects, in iteration order, planned members
absent from the current set, and `remove` collects current members absent
from the planned set. -/
def memberDiff (curMembers : List Uuid) (plannedMembers : List Uuid) :
    List Uuid × List Uuid :=
  (plannedMembers.filter (fun p => !curMembers.contains p),
   curMembers.filter (fun c => !plannedMembers.contains c))

/-- Embedding of `CheckGroupEntitlements`: an error diagnostic when the
TemplateRBAC feature is not enabled. -/
def CheckGroupEntitlements (features : String → Bool) : Option Diag :=
  if !(features featureTemplateRBAC) then some .featureNotEnabled else none

end Coderd

namespace Coderd

/-- Embedding of `GroupResource.Create`.  Entitlement gate, default-organization
resolution, the create call, then an unconditional membership patch call
(`PatchGroupRequest{AddUsers: members}`, other fields zero), writing state only
after both calls succeed.  A null `members` set yields an empty `AddUsers`
slice via `ElementsAs`. -/
def GroupResource.create (d : CoderdProviderData) (plan : GroupResourceModel) :
    OpResult :=
  match CheckGroupEntitlements d.features with
  | some e => ⟨[], some e, none⟩
  | none =>
    let data := if plan.organizationID.isNone then
        { plan with organizationID := some d.defaultOrganizationID }
      else plan
    let orgID := (data.organizationID).getD 0
    let createCall := Call.createGroup orgID data.name data.displayName
        data.avatarURL data.quotaAllowance
    match d.client.createGroupResp orgID data.name data.displayName
        data.avatarURL data.quotaAllowance with
    | .error _ => ⟨[createCall], some .createGroupFailed, none⟩
    | .ok group =>
      let data := { data with id := group.id, displayName := group.displayName }
      let members := (data.members).getD []
      let patchReq : PatchGroupRequest := ⟨members, [], "", none, none, none⟩
      let patchCall := Call.patchGroup group.id members [] "" none none none
      match d.client.patchGroupResp group.id patchReq with
      | .error _ => ⟨[createCall, patchCall], some .addMembersFailed, none⟩
      | .ok _ => ⟨[createCall, patchCall], none, some data⟩

/-- Embedding of `GroupResource.Read`.  Fetches the group by the stored ID,
maps every remote field onto the snapshot, and overwrites the members field
from the remote member list only when the prior members field is non-null. -/
def GroupResource.read (d : CoderdProviderData) (state : GroupResourceModel) :
    OpResult :=
  match d.client.groupResp state.id with
  | .error _ => ⟨[.fetchGroup state.id], some .getGroupFailed, none⟩
  | .ok group =>
    let data := { state with
      name := group.name
      displayName := group.displayName
      avatarURL := group.avatarURL
      quotaAllowance := group.quotaAllowance
      organizationID := some group.organizationID
      members := if state.members.isSome then some group.members else state.members }
    ⟨[.fetchGroup state.id], none, some data⟩

/-- Embedding of `GroupResource.Update`.  Re-fetches the group by ID, computes
the member diff against the freshly fetched members when the planned members
set is non-null (otherwise leaves both user lists nil), and issues a single
patch call carrying the user lists together with name, display name, avatar
URL and quota allowance. -/
def GroupResource.update (d : CoderdProviderData) (plan : GroupResourceModel) :
    OpResult :=
  let data := if plan.organizationID.isNone then
      { plan with organizationID := some d.defaultOrganizationID }
    else plan
  let groupID := data.id
  match d.client.groupResp groupID with
  | .error _ => ⟨[.fetchGroup groupID], some .getGroupFailed, none⟩
  | .ok group =>
    let ar : List Uuid × List Uuid :=
      match data.members with
      | none => ([], [])
      | some plannedMembers => memberDiff group.members plannedMembers
    let patchReq : PatchGroupRequest :=
      ⟨ar.1, ar.2, data.name, some data.displayName, some data.avatarURL,
        some data.quotaAllowance⟩
    let patchCall := Call.patchGroup group.id ar.1 ar.2 data.name
        (some data.displayName) (some data.avatarURL) (some data.quotaAllowance)
    match d.client.patchGroupResp group.id patchReq with
    | .error _ => ⟨[.fetchGroup groupID, patchCall], some .updateGroupFailed, none⟩
    | .ok _ => ⟨[.fetchGroup groupID, patchCall], none, some data⟩

end Coderd

namespace Coderd

/-- Hexadecimal digit test, as in `xvalues` of google/uuid. -/
def isHexDigit (c : Char) : Bool :=
  c.isDigit || ('a' ≤ c && c ≤ 'f') || ('A' ≤ c && c ≤ 'F')

/-- Value of a hexadecimal digit. -/
def hexVal (c : Char) : Nat :=
  if c.isDigit then c.toNat - '0'.toNat
  else if 'a' ≤ c && c ≤ 'f' then c.toNat - 'a'.toNat + 10
  else if 'A' ≤ c && c ≤ 'F' then c.toNat - 'A'.toNat + 10
  else 0

/-- Parses a list of characters as hexadecimal digits into the number they
denote; fails on any non-hex character. -/
def parseHexDigits (cs : List Char) : Option Nat :=
  cs.foldl
    (fun acc c => acc.bind (fun n => if isHexDigit c then some (n * 16 + hexVal c) else none))
    (some 0)

/-- Parses the canonical 36-character UUID form
xxxxxxxx-xxxx-xxxx-xxxx-xxxxxxxxxxxx: hyphens at offsets 8, 13, 18 and 23,
hex digits elsewhere. -/
def parseCanonical (cs : List Char) : Option Nat :=
  if cs.length = 36 ∧ cs[8]? = some '-' ∧ cs[13]? = some '-' ∧
      cs[18]? = some '-' ∧ cs[23]? = some '-' then
    parseHexDigits ((cs.enum.filter
      (fun p => !(p.1 = 8 || p.1 = 13 || p.1 = 18 || p.1 = 23))).map (·.2))
  else none

/-- Embedding of `uuid.Parse` (google/uuid): accepts the canonical form, the
URN-prefixed form, the brace-wrapped form, and the bare 32-hex-digit form;
the parsed UUID is its 128-bit value. -/
def uuidParse (s : String) : Option Uuid :=
  if s.length = 36 then parseCanonical s.data
  else if s.length = 45 then
    if (s.take 9).toLower = "urn:uuid:" then parseCanonical (s.drop 9).data else none
  else if s.length = 38 then
    if s.data[0]? = some (Char.ofNat 123) ∧ s.data[37]? = some (Char.ofNat 125) then
      parseCanonical ((s.drop 1).take 36).data
    else none
  else if s.length = 32 then parseHexDigits s.data
  else none

/-- Outcome of `ImportState`: the remote calls issued in order, the
diagnostic raised (if any), and the group ID written to state by
`SetAttribute` (if any). -/
structure ImportResult where
  calls : List Call
  err : Option Diag
  writtenID : Option Uuid
  deriving Repr, DecidableEq

/-- Accumulator pass for `splitOnSlash`, walking the characters once and
cutting at each separator. -/
def splitOnSlashAux : List Char → List Char → List String
  | [], acc => [String.mk acc.reverse]
  | ch :: rest, acc =>
    if ch = '/' then String.mk acc.reverse :: splitOnSlashAux rest []
    else splitOnSlashAux rest (ch :: acc)

/-- Embedding of the call `strings.Split(req.ID, "/")`: splits a string at
every occurrence of the slash character; a string with no slash yields the
one-element list holding the whole string, matching Go's `strings.Split`
for a single-character separator. -/
def splitOnSlash (s : String) : List String :=
  splitOnSlashAux s.data []

/-- Embedding of the identifier-resolution ladder at the top of
`GroupResource.ImportState`: splits the import ID on "/"; one token is
parsed as a UUID, two tokens resolve organization-by-name then
group-by-org-and-name, anything else is a format error.  Returns the lookup
calls issued along with the resolved group ID or the diagnostic. -/
def importResolve (d : CoderdProviderData) (reqID : String) :
    List Call × Except Diag Uuid :=
  let idParts := splitOnSlash reqID
  if idParts.length = 1 then
    match uuidParse reqID with
    | none => ([], .error .parseImportIDFailed)
    | some groupID => ([], .ok groupID)
  else if idParts.length = 2 then
    match d.client.organizationByNameResp (idParts.getD 0 "") with
    | .error _ =>
      ([.organizationByName (idParts.getD 0 "")], .error .getOrganizationFailed)
    | .ok org =>
      match d.client.groupByOrgAndNameResp org.id (idParts.getD 1 "") with
      | .error _ =>
        ([.organizationByName (idParts.getD 0 ""),
          .groupByOrgAndName org.id (idParts.getD 1 "")], .error .getGroupByNameFailed)
      | .ok group =>
        ([.organizationByName (idParts.getD 0 ""),
          .groupByOrgAndName org.id (idParts.getD 1 "")], .ok group.id)
  else ([], .error .invalidImportIDFormat)

/-- Embedding of `GroupResource.ImportState`: resolve the identifier, fetch
the group by the resolved ID, reject groups created via OIDC, and only then
write the ID to state. -/
def GroupResource.importState (d : CoderdProviderData) (reqID : String) :
    ImportResult :=
  match importResolve d reqID with
  | (calls, .error e) => ⟨calls, some e, none⟩
  | (calls, .ok groupID) =>
    match d.client.groupResp groupID with
    | .error _ => ⟨calls ++ [.fetchGroup groupID], some .getImportedGroupFailed, none⟩
    | .ok group =>
      if group.source = "oidc" then
        ⟨calls ++ [.fetchGroup groupID], some .cannotImportOIDCGroup, none⟩
      else
        ⟨calls ++ [.fetchGroup groupID], none, some groupID⟩

end Coderd

namespace Coderd

/-- Whether a call is a delete call. -/
def Call.isDelete : Call → Bool
  | .deleteGroup _ => true
  | _ => false

/-- Concrete remote group used to instantiate theorems. -/
def groupA : Group :=
  { id := 7, name := "devs", displayName := "Devs", avatarURL := "",
    quotaAllowance := 0, organizationID := 5, members := [1, 2], source := "user" }

/-- Concrete remote group created via OIDC. -/
def groupOIDC : Group := { groupA with source := "oidc" }

/-- Concrete client whose calls all succeed. -/
def clientOK : Client :=
  { createGroupResp := fun _ _ _ _ _ => .ok groupA
    patchGroupResp := fun _ _ => .ok groupA
    groupResp := fun _ => .ok groupA
    deleteGroupResp := fun _ => .ok ()
    organizationByNameResp := fun _ => .ok ⟨5⟩
    groupByOrgAndNameResp := fun _ _ => .ok groupA }

/-- Concrete plan with managed membership. -/
def planManaged : GroupResourceModel :=
  { id := 0, name := "devs", displayName := "", avatarURL := "",
    quotaAllowance := 0, organizationID := none, members := some [1, 2] }

/-- Concrete plan with unmanaged (null) membership. -/
def planUnmanaged : GroupResourceModel := { planManaged with members := none }

/-- Concrete provider data with entitlements enabled and an all-succeeding
client. -/
def dataOK : CoderdProviderData := ⟨clientOK, fun _ => true, 5⟩

/-- Concrete provider data with the TemplateRBAC feature disabled. -/
def dataNoEnt : CoderdProviderData := { dataOK with features := fun _ => false }

/-- C1: for duplicate-free member lists, `memberDiff current desired` returns
`(toAdd, toRemove)` with, as sets, `toAdd = desired − current`,
`toRemove = current − desired`, `toAdd ∩ current = ∅`,
`toRemove ∩ desired = ∅`, and `(current ∪ toAdd) − toRemove = desired`. -/
theorem memberDiff_spec (current desired : List Uuid)
    (hc : current.Nodup) (hd : desired.Nodup) :
    (∀ x, x ∈ (memberDiff current desired).1 ↔ x ∈ desired ∧ x ∉ current) ∧
    (∀ x, x ∈ (memberDiff current desired).2 ↔ x ∈ current ∧ x ∉ desired) ∧
    (∀ x, ¬(x ∈ (memberDiff current desired).1 ∧ x ∈ current)) ∧
    (∀ x, ¬(x ∈ (memberDiff current desired).2 ∧ x ∈ desired)) ∧
    (∀ x, ((x ∈ current ∨ x ∈ (memberDiff current desired).1) ∧
        x ∉ (memberDiff current desired).2) ↔ x ∈ desired) := by
  refine ⟨?_, ?_, ?_, ?_, ?_⟩ <;> intro x <;>
    simp only [memberDiff, List.mem_filter, Bool.not_eq_true', List.contains,
      List.elem_eq_mem, decide_eq_false_iff_not, and_comm] <;>
    by_cases hxc : x ∈ current <;> by_cases hxd : x ∈ desired <;> simp [hxc, hxd]

/-- Witness for C1 at current = [1, 2], desired = [2, 3], x = 3. -/
theorem memberDiff_spec_witness :
    3 ∈ (memberDiff [1, 2] [2, 3]).1 ↔ 3 ∈ [2, 3] ∧ 3 ∉ [1, 2] :=
  (memberDiff_spec [1, 2] [2, 3] (by decide) (by decide)).1 3

/-- C9: `memberDiff S S = (∅, ∅)`, `memberDiff ∅ X = (X, ∅)` and
`memberDiff X ∅ = (∅, X)`. -/
theorem memberDiff_identities (S X : List Uuid) :
    memberDiff S S = ([], []) ∧ memberDiff [] X = (X, []) ∧
    memberDiff X [] = ([], X) := by
  refine ⟨?_, ?_, ?_⟩ <;>
    simp [memberDiff, List.filter_eq_self, List.contains, List.elem_eq_mem]

/-- C5: when the TemplateRBAC feature is disabled, Create fails with the
entitlement diagnostic, issues zero remote calls, and writes no state. -/
theorem create_entitlement_denied (d : CoderdProviderData)
    (plan : GroupResourceModel)
    (h : d.features featureTemplateRBAC = false) :
    GroupResource.create d plan = ⟨[], some .featureNotEnabled, none⟩ := by
  simp [GroupResource.create, CheckGroupEntitlements, h]

/-- Witness for C5 with the entitlement-disabled provider data. -/
theorem create_entitlement_denied_witness :
    GroupResource.create dataNoEnt planManaged = ⟨[], some .featureNotEnabled, none⟩ :=
  create_entitlement_denied dataNoEnt planManaged rfl

end Coderd

namespace Coderd

/-- C8: on a successful Read, every scalar remote field (name, display name,
avatar URL, quota, organization ID) is mapped onto the snapshot; the members
field is overwritten from the remote member list only when the prior members
field was non-null, and is left null when it was null. -/
theorem read_refreshes_members_only_when_managed (d : CoderdProviderData)
    (state : GroupResourceModel) (g : Group)
    (h : d.client.groupResp state.id = .ok g) :
    GroupResource.read d state =
      ⟨[.fetchGroup state.id], none,
        some { state with
          name := g.name
          displayName := g.displayName
          avatarURL := g.avatarURL
          quotaAllowance := g.quotaAllowance
          organizationID := some g.organizationID
          members := if state.members.isSome then some g.members else none }⟩ := by
  cases hm : state.members <;> simp [GroupResource.read, h, hm]

/-- Witness for C8: reading an unmanaged-membership snapshot against the
all-succeeding client leaves members null and refreshes the scalars. -/
theorem read_refreshes_members_only_when_managed_witness :
    GroupResource.read dataOK planUnmanaged =
      ⟨[.fetchGroup planUnmanaged.id], none,
        some { planUnmanaged with
          name := groupA.name
          displayName := groupA.displayName
          avatarURL := groupA.avatarURL
          quotaAllowance := groupA.quotaAllowance
          organizationID := some groupA.organizationID
          members := if planUnmanaged.members.isSome then some groupA.members
            else none }⟩ :=
  read_refreshes_members_only_when_managed dataOK planUnmanaged groupA rfl

/-- C10: Create, Read and Update never both raise a diagnostic and write a
state snapshot: every error path (in particular every remote-call failure)
returns before `State.Set`, leaving the stored state unchanged. -/
theorem ops_write_no_state_on_error (d : CoderdProviderData)
    (m : GroupResourceModel) :
    (((GroupResource.create d m).err.isSome &&
        (GroupResource.create d m).written.isSome) = false) ∧
    (((GroupResource.read d m).err.isSome &&
        (GroupResource.read d m).written.isSome) = false) ∧
    (((GroupResource.update d m).err.isSome &&
        (GroupResource.update d m).written.isSome) = false) := by
  refine ⟨?_, ?_, ?_⟩
  · unfold GroupResource.create
    repeat' first
      | rfl
      | split
      | dsimp only
  · unfold GroupResource.read
    repeat' first
      | rfl
      | split
      | dsimp only
  · unfold GroupResource.update
    repeat' first
      | rfl
      | split
      | dsimp only

/-- C2 as stated is false: Create with the null (unmanaged) members sentinel
still issues a membership patch call (with empty addUsers) after the create
call. -/
theorem create_unmanaged_members_counterexample :
    planUnmanaged.members = none ∧
    (GroupResource.create dataOK planUnmanaged).calls.any Call.isPatch = true := by
  exact ⟨rfl, by decide⟩

/-- C2 amended: after a successful create call, Create always issues exactly
one follow-up membership patch call — with addUsers = desired members and no
removeUsers when membership is managed, and with empty addUsers (leaving
remote membership unchanged) when membership is the null sentinel. -/
theorem create_always_patches_after_create (d : CoderdProviderData)
    (plan : GroupResourceModel) (g : Group)
    (hent : d.features featureTemplateRBAC = true)
    (hcreate : d.client.createGroupResp
        (plan.organizationID.getD d.defaultOrganizationID)
        plan.name plan.displayName plan.avatarURL plan.quotaAllowance = .ok g) :
    (GroupResource.create d plan).calls =
      [Call.createGroup (plan.organizationID.getD d.defaultOrganizationID)
        plan.name plan.displayName plan.avatarURL plan.quotaAllowance,
       Call.patchGroup g.id (plan.members.getD []) [] "" none none none] := by
  cases ho : plan.organizationID <;>
    cases hp : d.client.patchGroupResp g.id
        ⟨plan.members.getD [], [], "", none, none, none⟩ <;>
    simp_all [GroupResource.create, CheckGroupEntitlements]

/-- Witness for C2's amended claim: creating with managed members [1, 2]
issues the create call and then one patch call with addUsers = [1, 2]. -/
theorem create_always_patches_after_create_witness :
    (GroupResource.create dataOK planManaged).calls =
      [Call.createGroup (planManaged.organizationID.getD dataOK.defaultOrganizationID)
        planManaged.name planManaged.displayName planManaged.avatarURL
        planManaged.quotaAllowance,
       Call.patchGroup groupA.id (planManaged.members.getD []) [] "" none none none] :=
  create_always_patches_after_create dataOK planManaged groupA rfl rfl

/-- C7: when the membership patch call fails after a successful create call,
Create surfaces the error immediately, writes no state, and issues no delete
call (nor any other compensating mutation) — the created group is not rolled
back. -/
theorem create_patch_failure_no_rollback (d : CoderdProviderData)
    (plan : GroupResourceModel) (g : Group) (e : String)
    (hent : d.features featureTemplateRBAC = true)
    (hcreate : d.client.createGroupResp
        (plan.organizationID.getD d.defaultOrganizationID)
        plan.name plan.displayName plan.avatarURL plan.quotaAllowance = .ok g)
    (hpatch : d.client.patchGroupResp g.id
        ⟨plan.members.getD [], [], "", none, none, none⟩ = .error e) :
    (GroupResource.create d plan).err = some .addMembersFailed ∧
    (GroupResource.create d plan).written = none ∧
    (GroupResource.create d plan).calls.all (fun c => !(c.isDelete)) = true := by
  cases ho : plan.organizationID <;>
    simp_all [GroupResource.create, CheckGroupEntitlements, Call.isDelete]

end Coderd

namespace Coderd

/-- Concrete client whose membership patch calls fail. -/
def clientPatchFails : Client :=
  { clientOK with patchGroupResp := fun _ _ => .error "patch failed" }

/-- Concrete provider data whose membership patch calls fail. -/
def dataPatchFails : CoderdProviderData := ⟨clientPatchFails, fun _ => true, 5⟩

/-- Witness for C7: a failing patch after a successful create surfaces the
error, writes no state, and issues no delete call. -/
theorem create_patch_failure_no_rollback_witness :
    (GroupResource.create dataPatchFails planManaged).err = some .addMembersFailed ∧
    (GroupResource.create dataPatchFails planManaged).written = none ∧
    (GroupResource.create dataPatchFails planManaged).calls.all
      (fun c => !(c.isDelete)) = true :=
  create_patch_failure_no_rollback dataPatchFails planManaged groupA "patch failed"
    rfl rfl rfl

/-- C3: Update first re-fetches the group by the stored ID, then issues
exactly one patch call whose user lists are the member diff of the freshly
fetched members against the planned members (both empty when membership is
the null sentinel) and which carries name, display name, avatar URL and
quota allowance together. -/
theorem update_refetch_then_single_patch (d : CoderdProviderData)
    (plan : GroupResourceModel) (g : Group)
    (h : d.client.groupResp plan.id = .ok g) :
    (GroupResource.update d plan).calls =
      [Call.fetchGroup plan.id,
       Call.patchGroup g.id
         (match plan.members with
           | none => []
           | some pm => (memberDiff g.members pm).1)
         (match plan.members with
           | none => []
           | some pm => (memberDiff g.members pm).2)
         plan.name (some plan.displayName) (some plan.avatarURL)
         (some plan.quotaAllowance)] := by
  cases ho : plan.organizationID <;> cases hm : plan.members <;>
    simp_all [GroupResource.update] <;>
    split <;> simp_all

/-- Witness for C3 at the all-succeeding client and the managed plan. -/
theorem update_refetch_then_single_patch_witness :
    (GroupResource.update dataOK planManaged).calls =
      [Call.fetchGroup planManaged.id,
       Call.patchGroup groupA.id
         (match planManaged.members with
           | none => []
           | some pm => (memberDiff groupA.members pm).1)
         (match planManaged.members with
           | none => []
           | some pm => (memberDiff groupA.members pm).2)
         planManaged.name (some planManaged.displayName)
         (some planManaged.avatarURL) (some planManaged.quotaAllowance)] :=
  update_refetch_then_single_patch dataOK planManaged groupA rfl

/-- C4: import identifier resolution follows the two-shape protocol: one
token is parsed directly as a UUID and fails before any remote call when it
does not parse; two tokens trigger one organization-by-name lookup followed,
only on its success, by one group-by-org-and-name lookup, with the
corresponding diagnostics on failure; any other token count fails before any
remote call. -/
theorem importState_resolution (d : CoderdProviderData) (s : String) :
    ((splitOnSlash s).length = 1 → uuidParse s = none →
      GroupResource.importState d s = ⟨[], some .parseImportIDFailed, none⟩) ∧
    (∀ gid, (splitOnSlash s).length = 1 → uuidParse s = some gid →
      importResolve d s = ([], .ok gid)) ∧
    ((splitOnSlash s).length = 2 →
      (∀ e, d.client.organizationByNameResp ((splitOnSlash s).getD 0 "") = .error e →
        GroupResource.importState d s =
          ⟨[.organizationByName ((splitOnSlash s).getD 0 "")],
            some .getOrganizationFailed, none⟩) ∧
      (∀ org, d.client.organizationByNameResp ((splitOnSlash s).getD 0 "") = .ok org →
        (∀ e, d.client.groupByOrgAndNameResp org.id ((splitOnSlash s).getD 1 "") =
            .error e →
          GroupResource.importState d s =
            ⟨[.organizationByName ((splitOnSlash s).getD 0 ""),
              .groupByOrgAndName org.id ((splitOnSlash s).getD 1 "")],
              some .getGroupByNameFailed, none⟩) ∧
        (∀ g, d.client.groupByOrgAndNameResp org.id ((splitOnSlash s).getD 1 "") =
            .ok g →
          importResolve d s =
            ([.organizationByName ((splitOnSlash s).getD 0 ""),
              .groupByOrgAndName org.id ((splitOnSlash s).getD 1 "")], .ok g.id)))) ∧
    ((splitOnSlash s).length ≠ 1 → (splitOnSlash s).length ≠ 2 →
      GroupResource.importState d s = ⟨[], some .invalidImportIDFormat, none⟩) := by
  refine ⟨?_, ?_, ?_, ?_⟩
  · intro h1 hp
    simp [GroupResource.importState, importResolve, h1, hp]
  · intro gid h1 hp
    simp [importResolve, h1, hp]
  · intro h2
    obtain ⟨a, b, hsp⟩ := List.length_eq_two.mp h2
    refine ⟨?_, ?_⟩
    · intro e horg
      rw [hsp] at horg
      simp only [List.getD_cons_zero] at horg
      simp [GroupResource.importState, importResolve, hsp, horg]
    · intro org horg
      rw [hsp] at horg
      simp only [List.getD_cons_zero] at horg
      refine ⟨?_, ?_⟩
      · intro e hgbn
        rw [hsp] at hgbn
        simp only [List.getD_cons_succ, List.getD_cons_zero] at hgbn
        simp [GroupResource.importState, importResolve, hsp, horg, hgbn]
      · intro g hgbn
        rw [hsp] at hgbn
        simp only [List.getD_cons_succ, List.getD_cons_zero] at hgbn
        simp [importResolve, hsp, horg, hgbn]
  · intro h1 h2
    simp [GroupResource.importState, importResolve, h1, h2]

/-- Witness for C4: a three-segment identifier fails with the format
diagnostic before any remote call. -/
theorem importState_resolution_witness :
    GroupResource.importState dataOK "a/b/c" = ⟨[], some .invalidImportIDFormat, none⟩ :=
  (importState_resolution dataOK "a/b/c").2.2.2 (by decide) (by decide)

/-- Identifier resolution issues lookup calls only, never a mutating call. -/
theorem importResolve_no_mutation (d : CoderdProviderData) (s : String) :
    (importResolve d s).1.all (fun c => !(c.isMutation)) = true := by
  unfold importResolve
  repeat' first
    | rfl
    | split
    | dsimp only

/-- C6: when the import identifier resolves to an ID whose fetched group was
created via OIDC (externally sourced), ImportState fails with the
cannot-import diagnostic, stores no ID in state, and issues no mutating call
at any point. -/
theorem importState_rejects_oidc (d : CoderdProviderData) (s : String)
    (calls : List Call) (gid : Uuid) (g : Group)
    (hres : importResolve d s = (calls, .ok gid))
    (hfetch : d.client.groupResp gid = .ok g)
    (hsrc : g.source = "oidc") :
    GroupResource.importState d s =
      ⟨calls ++ [.fetchGroup gid], some .cannotImportOIDCGroup, none⟩ ∧
    (GroupResource.importState d s).calls.all (fun c => !(c.isMutation)) = true := by
  have h1 : GroupResource.importState d s =
      ⟨calls ++ [.fetchGroup gid], some .cannotImportOIDCGroup, none⟩ := by
    simp [GroupResource.importState, hres, hfetch, hsrc]
  refine ⟨h1, ?_⟩
  rw [h1]
  have h2 := importResolve_no_mutation d s
  rw [hres] at h2
  simp only [List.all_append, h2, Bool.true_and]
  simp [Call.isMutation]

/-- Concrete client whose group fetches return an OIDC-sourced group. -/
def clientOIDC : Client := { clientOK with groupResp := fun _ => .ok groupOIDC }

/-- Concrete provider data whose group fetches return an OIDC-sourced
group. -/
def dataOIDC : CoderdProviderData := ⟨clientOIDC, fun _ => true, 5⟩

/-- Canonical UUID string with value 7. -/
def importID7 : String := "00000000-0000-0000-0000-000000000007"

/-- Witness for C6: importing a UUID whose group is OIDC-sourced fails with
the cannot-import diagnostic and stores nothing. -/
theorem importState_rejects_oidc_witness :
    GroupResource.importState dataOIDC importID7 =
      ⟨[] ++ [.fetchGroup 7], some .cannotImportOIDCGroup, none⟩ :=
  (importState_rejects_oidc dataOIDC importID7 [] 7 groupOIDC rfl rfl rfl).1

end Coderd
